import Mathlib

set_option maxRecDepth 100000

/-!
Verification of the time-series assembly and incremental-update pipeline of the
BTC price dashboard (`src/components/PriceChart.js`).

The embedding translates the relevant parts of that component into pure Lean
definitions:

* timestamps are `Nat` milliseconds; prices are `Rat` (JS numbers at the
  precision the comparisons in the code use);
* the browser's local wall-clock conversion `new Date(t).getHours()` /
  `.getMinutes()` is abstracted as a parameter `hm : Nat → Nat × Nat`
  (hour, minute); `hmOfMinutes` below is a concrete UTC instance used in
  closed-form evaluations;
* React state updates become explicit state-passing; the per-point style
  closures the code stores in the Chart.js dataset become function fields.
-/

/-- The colors the component's style closures can return.  `gray` is the
neutral color, `green` is "up", `red` is "down". -/
inductive Color
  | green
  | red
  | gray
  | white
  | transparent
deriving DecidableEq, Repr

/-- One kline row as the code consumes it: index 0 (open time, ms) and
index 4 (close price); the other OHLC fields are ignored by the component. -/
structure Candle where
  openTime : Nat
  close : Rat
deriving DecidableEq, Repr

/-- `n.toString().padStart(2, '0')`. -/
def pad2 (n : Nat) : String :=
  if n < 10 then "0" ++ toString n else toString n

/-- The `HH:MM` label format used both when generating the Today grid and when
formatting an incoming websocket kline's bucket open time. -/
def fmtLabel (p : Nat × Nat) : String :=
  pad2 p.1 ++ ":" ++ pad2 p.2

/-- A concrete wall clock: UTC hour and minute of a millisecond timestamp.
One instance of the browser's `Date`-based local-time conversion, used to
evaluate the model on closed inputs. -/
def hmOfMinutes (t : Nat) : Nat × Nat :=
  (t / 60000 / 60 % 24, t / 60000 % 60)

/-- The label/price pair the chart consumes (`labels` / `datasets[0].data`). -/
structure Series where
  labels : List String
  prices : List (Option Rat)
deriving Repr

/-- The nested `for (hour) for (minute)` loops of the Today branch enumerate
these (hour, minute) slots in order. -/
def todaySlots : List (Nat × Nat) :=
  (List.range 24).flatMap fun hour => (List.range 60).map fun minute => (hour, minute)

/-- The Today (`interval === '1m'`) branch of `fetchHistoricalData`'s
label/price generation: for every minute slot of the day push the `HH:MM`
label, and push the close of the first candle whose wall-clock hour and
minute match the slot (`data.find(...)`), or `null` when none matches.
`hm` is the wall-clock conversion `new Date(kline[0]).getHours()/getMinutes()`. -/
def buildToday (hm : Nat → Nat × Nat) (data : List Candle) : Series :=
  { labels := todaySlots.map fmtLabel
    prices := todaySlots.map fun slot =>
      (data.find? fun k => hm k.openTime == slot).map Candle.close }

example : fmtLabel (0, 5) = "00:05" := by decide
example : fmtLabel (23, 59) = "23:59" := by decide

/-- Nested loops over `a` rows of `b` columns enumerate the same pairs as a
single loop over `a * b` indices split by division and remainder. -/
lemma range_mul_flatMap (a b : Nat) (hb : 0 < b) :
    ((List.range (a * b)).map fun k => (k / b, k % b)) =
      (List.range a).flatMap fun h => (List.range b).map fun m => (h, m) := by
  induction a with
  | zero => simp
  | succ a ih =>
    rw [Nat.succ_mul, List.range_add, List.map_append, List.map_map,
      List.range_succ, List.flatMap_append, ← ih]
    congr 1
    simp only [List.flatMap_cons, List.flatMap_nil, List.append_nil]
    apply List.map_congr_left
    intro m hm
    have hmb : m < b := List.mem_range.mp hm
    have h1 : (a * b + m) / b = a := by
      rw [Nat.mul_comm a b, Nat.mul_add_div hb, Nat.div_eq_of_lt hmb, Nat.add_zero]
    have h2 : (a * b + m) % b = m := by
      rw [Nat.mul_comm a b, Nat.mul_add_mod, Nat.mod_eq_of_lt hmb]
    simp [Function.comp, h1, h2]

/-- The nested hour/minute loops enumerate exactly minute `k` of the day,
for `k = 0, …, 1439`. -/
lemma todaySlots_eq : todaySlots = (List.range 1440).map fun k => (k / 60, k % 60) := by
  have h := range_mul_flatMap 24 60 (by norm_num)
  norm_num at h
  exact h.symm

/-- C1: for the Today interval, for every wall clock and every input candle
list (empty, partial, or a full day), `buildToday` returns a series whose
labels are exactly the 1440 minute strings `"00:00"` … `"23:59"` in order,
whose prices have the same length 1440, and whose price at minute `k` is the
close of the first candle whose wall-clock hour:minute is `(k / 60, k % 60)`
— the slot of label `k` — and `none` when no candle matches. -/
theorem buildToday_full_grid (hm : Nat → Nat × Nat) (data : List Candle) :
    (buildToday hm data).labels =
      ((List.range 1440).map fun k => pad2 (k / 60) ++ ":" ++ pad2 (k % 60)) ∧
    (buildToday hm data).labels.length = 1440 ∧
    (buildToday hm data).prices.length = 1440 ∧
    (buildToday hm data).prices =
      ((List.range 1440).map fun k =>
        (data.find? fun c => hm c.openTime == (k / 60, k % 60)).map Candle.close) := by
  refine ⟨?_, ?_, ?_, ?_⟩
  · simp only [buildToday, todaySlots_eq, List.map_map]
    apply List.map_congr_left
    intro k _
    rfl
  · simp only [buildToday, todaySlots_eq, List.map_map, List.length_map, List.length_range]
  · simp only [buildToday, todaySlots_eq, List.map_map, List.length_map, List.length_range]
  · simp only [buildToday, todaySlots_eq, List.map_map]
    apply List.map_congr_left
    intro k _
    rfl

/-- `prices.findLastIndex(price => price !== null)`, with JS's `-1` sentinel
rendered as `none`. -/
def lastNonNullIndex : List (Option Rat) → Option Nat
  | [] => none
  | p :: rest =>
    match lastNonNullIndex rest with
    | some j => some (j + 1)
    | none => if p.isSome then some 0 else none

/-- `prices.filter(price => price !== null).pop()`: the last non-null price. -/
def lastValidPrice (prices : List (Option Rat)) : Option Rat :=
  (prices.filterMap id).getLast?

/-- Initial-build `pointRadius` closure: radius 6 exactly at the index
returned by `prices.findLastIndex(price => price !== null)`, else 0. -/
def initPointRadius (prices : List (Option Rat)) (i : Nat) : Nat :=
  if some i = lastNonNullIndex prices then 6 else 0

/-- Initial-build `pointBackgroundColor` closure: at the last non-null index
with a non-null price, green/red by strict `>` against the baseline when
`prices.length > 0 && previousClose !== null`, else gray; every other index
is transparent. -/
def initPointBg (prices : List (Option Rat)) (baseline : Option Rat) (i : Nat) : Color :=
  if some i = lastNonNullIndex prices then
    match prices.getD i none with
    | some p =>
      if 0 < prices.length then
        match baseline with
        | some b => if b < p then Color.green else Color.red
        | none => Color.gray
      else Color.gray
    | none => Color.transparent
  else Color.transparent

/-- Initial-build `pointBorderColor` closure: white at the last non-null
index with a non-null price, transparent elsewhere. -/
def initPointBorder (prices : List (Option Rat)) (i : Nat) : Color :=
  if some i = lastNonNullIndex prices then
    match prices.getD i none with
    | some _ => Color.white
    | none => Color.transparent
  else Color.transparent

/-- Initial-build `borderColor`:
`lastValidPrice && previousClose !== null ? (lastValidPrice > previousClose ?
green : red) : gray`.  The JS guard tests the number itself, so a last price
of `0` is falsy and also falls to gray. -/
def initBorderColor (prices : List (Option Rat)) (baseline : Option Rat) : Color :=
  match lastValidPrice prices, baseline with
  | some p, some b => if p ≠ 0 then (if b < p then Color.green else Color.red) else Color.gray
  | _, _ => Color.gray

/-- JS `x > y` where `y` may be `null`: the relational operator coerces
`null` to `0`. -/
def jsGtNullable (x : Rat) (y : Option Rat) : Bool :=
  decide (y.getD 0 < x)

/-- Live-update `pointRadius` closure: radius 6 exactly at `timeIndex`, the
slot the incoming kline was merged into. -/
def livePointRadius (timeIndex i : Nat) : Nat :=
  if i = timeIndex then 6 else 0

/-- Live-update `pointBackgroundColor` closure:
`closePrice > previousClose ? green : red` at `timeIndex` (note: no null
check on the baseline here), transparent elsewhere. -/
def livePointBg (timeIndex : Nat) (closePrice : Rat) (baseline : Option Rat) (i : Nat) : Color :=
  if i = timeIndex then
    if jsGtNullable closePrice baseline then Color.green else Color.red
  else Color.transparent

/-- Live-update `pointBorderColor` closure: white at `timeIndex`,
transparent elsewhere. -/
def livePointBorder (timeIndex i : Nat) : Color :=
  if i = timeIndex then Color.white else Color.transparent

/-- Live-update `borderColor`:
`previousClose !== null ? (closePrice > previousClose ? green : red) : gray`. -/
def liveBorderColor (closePrice : Rat) (baseline : Option Rat) : Color :=
  match baseline with
  | some b => if b < closePrice then Color.green else Color.red
  | none => Color.gray

/-- The slice of the Chart.js price dataset that the component computes:
the data array plus the per-point style closures and the line color. -/
structure Dataset where
  data : List (Option Rat)
  pointRadius : Nat → Nat
  pointBg : Nat → Color
  pointBorder : Nat → Color
  borderColor : Color

/-- The `chartData` React state: labels plus the price dataset. -/
structure ChartData where
  labels : List String
  dataset : Dataset

/-- The dataset the initial `setChartData` call in `fetchHistoricalData`
installs for a given price array and baseline. -/
def initialDataset (prices : List (Option Rat)) (baseline : Option Rat) : Dataset :=
  { data := prices
    pointRadius := initPointRadius prices
    pointBg := initPointBg prices baseline
    pointBorder := initPointBorder prices
    borderColor := initBorderColor prices baseline }

/-- One websocket kline message as the handler consumes it:
`k.t` (bucket open time, ms) and `k.c` (close price). -/
structure LiveUpdate where
  bucketOpenTime : Nat
  closePrice : Rat

/-- The `setChartData` updater in `ws.onmessage`: format the bucket open
time as `HH:MM`, look the label up with `prev.labels.indexOf`; when absent
return `prev` unchanged, otherwise overwrite the slot's price and install
the live-path style closures for the found `timeIndex`. -/
def applyMessage (hm : Nat → Nat × Nat) (baseline : Option Rat)
    (prev : ChartData) (u : LiveUpdate) : ChartData :=
  let ts := fmtLabel (hm u.bucketOpenTime)
  match prev.labels.findIdx? (fun l => l == ts) with
  | none => prev
  | some timeIndex =>
    { labels := prev.labels
      dataset :=
        { data := prev.dataset.data.set timeIndex (some u.closePrice)
          pointRadius := livePointRadius timeIndex
          pointBg := livePointBg timeIndex u.closePrice baseline
          pointBorder := livePointBorder timeIndex
          borderColor := liveBorderColor u.closePrice baseline } }

/-- The state the Today websocket handler touches: the chart plus the
current-price readout. -/
structure TodayState where
  chart : ChartData
  currentPrice : Option Rat

/-- The whole `ws.onmessage` handler: `setCurrentPrice(closePrice)` runs
unconditionally, before and independently of the label lookup; then the
`setChartData` updater runs. -/
def onMessage (hm : Nat → Nat × Nat) (baseline : Option Rat)
    (s : TodayState) (u : LiveUpdate) : TodayState :=
  { currentPrice := some u.closePrice
    chart := applyMessage hm baseline s.chart u }

example : initBorderColor [some 105, none] (some 100) = Color.green := by decide
example : initBorderColor [some 100] (some 100) = Color.red := by decide
example : initBorderColor [some 100] none = Color.gray := by decide
example : liveBorderColor 100 none = Color.gray := by decide
example : livePointBg 3 100 none 3 = Color.green := by decide
example : lastNonNullIndex [some 1, none, some 2, none] = some 2 := by decide

/-- `findLastIndex` finds no index exactly when filtering the nulls away
leaves nothing. -/
lemma lastNonNullIndex_none_iff (ps : List (Option Rat)) :
    lastNonNullIndex ps = none ↔ ps.filterMap id = [] := by
  induction ps with
  | nil => simp [lastNonNullIndex]
  | cons p rest ih =>
    cases hr : lastNonNullIndex rest with
    | some j =>
      have hne : rest.filterMap id ≠ [] := by
        intro he
        rw [← ih] at he
        simp [he] at hr
      cases p <;> simp [lastNonNullIndex, hr, List.filterMap_cons, hne]
    | none =>
      have hrn : rest.filterMap id = [] := ih.mp hr
      cases p <;> simp [lastNonNullIndex, hr, List.filterMap_cons, hrn]

/-- A list whose last non-null index exists is nonempty. -/
lemma length_pos_of_lastNonNullIndex (ps : List (Option Rat)) (j : Nat)
    (h : lastNonNullIndex ps = some j) : 0 < ps.length := by
  cases ps with
  | nil => simp [lastNonNullIndex] at h
  | cons p rest => simp

/-- `getLast?` of a cons is the tail's `getLast?` when the tail is
nonempty. -/
lemma getLast?_cons_of_ne_nil (a : Rat) (l : List Rat) (h : l ≠ []) :
    (a :: l).getLast? = l.getLast? := by
  cases l with
  | nil => exact absurd rfl h
  | cons b t => exact List.getLast?_cons_cons ..

/-- The value `filter(...).pop()` extracts is exactly the entry at the index
`findLastIndex(...)` reports: the two ways the component reads "the last
non-null price" agree. -/
lemma lastValidPrice_eq_getD (ps : List (Option Rat)) (j : Nat)
    (h : lastNonNullIndex ps = some j) : lastValidPrice ps = ps.getD j none := by
  induction ps generalizing j with
  | nil => simp [lastNonNullIndex] at h
  | cons p rest ih =>
    cases hr : lastNonNullIndex rest with
    | some j2 =>
      have hj : j = j2 + 1 := by
        simp [lastNonNullIndex, hr] at h
        omega
      subst hj
      have hne : rest.filterMap id ≠ [] := by
        intro he
        rw [← lastNonNullIndex_none_iff] at he
        simp [he] at hr
      have hcons : lastValidPrice (p :: rest) = lastValidPrice rest := by
        unfold lastValidPrice
        cases p with
        | none => simp [List.filterMap_cons]
        | some a =>
          simp only [List.filterMap_cons, id]
          exact getLast?_cons_of_ne_nil a _ hne
      rw [hcons, ih j2 hr]
      simp
    | none =>
      have hp : p.isSome := by
        by_contra hps
        simp [lastNonNullIndex, hr, hps] at h
      obtain ⟨a, rfl⟩ := Option.isSome_iff_exists.mp hp
      have hj : j = 0 := by
        simp [lastNonNullIndex, hr] at h
        omega
      subst hj
      have hrn : rest.filterMap id = [] := (lastNonNullIndex_none_iff rest).mp hr
      unfold lastValidPrice
      simp [List.filterMap_cons, hrn]

/-- The entry at the reported last non-null index is indeed non-null. -/
lemma getD_lastNonNullIndex_isSome (ps : List (Option Rat)) (j : Nat)
    (h : lastNonNullIndex ps = some j) : (ps.getD j none).isSome := by
  rw [← lastValidPrice_eq_getD ps j h]
  unfold lastValidPrice
  rw [List.getLast?_isSome]
  intro he
  rw [← lastNonNullIndex_none_iff] at he
  simp [he] at h

/-- When `indexOf` finds no slot for the formatted bucket label, the
`setChartData` updater returns `prev` itself. -/
lemma applyMessage_not_found (hm : Nat → Nat × Nat) (baseline : Option Rat)
    (prev : ChartData) (u : LiveUpdate)
    (h : prev.labels.findIdx? (fun l => l == fmtLabel (hm u.bucketOpenTime)) = none) :
    applyMessage hm baseline prev u = prev := by
  simp only [applyMessage, h]

/-- C7: a live update whose bucket open time formats to a label that does
not occur in the current series labels leaves the chart state — series and
derived presentation alike — exactly unchanged: the updater returns the
previous state itself. -/
theorem unmatched_update_is_noop (hm : Nat → Nat × Nat) (baseline : Option Rat)
    (prev : ChartData) (u : LiveUpdate)
    (h : prev.labels.findIdx? (fun l => l == fmtLabel (hm u.bucketOpenTime)) = none) :
    applyMessage hm baseline prev u = prev :=
  applyMessage_not_found hm baseline prev u h

/-- C7 witness: a concrete chart holding only the label `"10:00"` and an
update for minute `00:01` (open time 60000 ms): the label is not found and
the state is returned unchanged. -/
theorem unmatched_update_is_noop_witness :
    (["10:00"].findIdx? (fun l => l == fmtLabel (hmOfMinutes 60000)) = none) ∧
    applyMessage hmOfMinutes (some 50)
        { labels := ["10:00"], dataset := initialDataset [some 1] (some 50) }
        { bucketOpenTime := 60000, closePrice := 7 } =
      { labels := ["10:00"], dataset := initialDataset [some 1] (some 50) } :=
  ⟨by decide,
    unmatched_update_is_noop hmOfMinutes (some 50)
      { labels := ["10:00"], dataset := initialDataset [some 1] (some 50) }
      { bucketOpenTime := 60000, closePrice := 7 } (by decide)⟩

/-- C2, at the failing input: with the baseline absent (`previousClose`
still `null`), merging a live update with close 100 into slot `"00:01"`
yields a green last-point marker — `closePrice > null` coerces `null` to 0 —
while the line color of the same update is the neutral gray, and while the
initial-build path's marker for the very same merged series is gray.  This
contradicts the code's own comment that the last point color matches the
line color. -/
theorem live_marker_green_without_baseline :
    (applyMessage hmOfMinutes none
        { labels := ["00:00", "00:01"], dataset := initialDataset [some 50, none] none }
        { bucketOpenTime := 60000, closePrice := 100 }).dataset.pointBg 1 = Color.green ∧
    (applyMessage hmOfMinutes none
        { labels := ["00:00", "00:01"], dataset := initialDataset [some 50, none] none }
        { bucketOpenTime := 60000, closePrice := 100 }).dataset.borderColor = Color.gray ∧
    initPointBg [some 50, some 100] none 1 = Color.gray := by
  decide

/-- C8 counterexample: with baseline 0 and last (and only) non-absent price
0 — a tie — the initial-build line color is gray, not the "down" red: the JS
guard `lastValidPrice && …` treats the number 0 as falsy. -/
theorem tie_down_counterexample :
    initBorderColor [some 0] (some 0) = Color.gray ∧ Color.gray ≠ Color.red := by
  decide

/-- C8 as amended: whenever the baseline is present and equal to the last
non-absent price, and that price is non-zero, both paths color "down" (red):
the initial build's line and marker, and the live path's line and marker for
an update that wrote the tying price into that slot.  The comparison is a
strict greater-than, so a tie falls to the red branch. -/
theorem tie_counts_as_down (ps : List (Option Rat)) (b : Rat) (j : Nat)
    (hj : lastNonNullIndex ps = some j) (hv : ps.getD j none = some b) (hb : b ≠ 0) :
    initBorderColor ps (some b) = Color.red ∧
    initPointBg ps (some b) j = Color.red ∧
    liveBorderColor b (some b) = Color.red ∧
    livePointBg j b (some b) j = Color.red := by
  have h1 : lastValidPrice ps = some b := by
    rw [lastValidPrice_eq_getD ps j hj, hv]
  refine ⟨?_, ?_, ?_, ?_⟩
  · unfold initBorderColor
    rw [h1]
    simp [hb]
  · unfold initPointBg
    rw [← hj, hv]
    simp [length_pos_of_lastNonNullIndex ps j hj]
  · simp [liveBorderColor]
  · simp [livePointBg, jsGtNullable]

/-- C8 witness: baseline 100, single price 100 — every color is red. -/
theorem tie_counts_as_down_witness :
    lastNonNullIndex [some (100 : Rat)] = some 0 ∧
    initBorderColor [some 100] (some 100) = Color.red ∧
    initPointBg [some 100] (some 100) 0 = Color.red ∧
    liveBorderColor 100 (some 100) = Color.red ∧
    livePointBg 0 100 (some 100) 0 = Color.red := by
  have h := tie_counts_as_down [some 100] 100 0 (by decide) (by decide) (by norm_num)
  exact ⟨by decide, h.1, h.2.1, h.2.2.1, h.2.2.2⟩

/-- C10: the websocket handler sets the current-price snapshot to the
message's close price on every message; when the message's bucket label is
not in the series and the update is discarded, the snapshot is still set
while the chart state stays unchanged. -/
theorem currentPrice_updated_even_on_discard (hm : Nat → Nat × Nat) (baseline : Option Rat)
    (s : TodayState) (u : LiveUpdate) :
    (onMessage hm baseline s u).currentPrice = some u.closePrice ∧
    (s.chart.labels.findIdx? (fun l => l == fmtLabel (hm u.bucketOpenTime)) = none →
      (onMessage hm baseline s u).chart = s.chart) := by
  refine ⟨rfl, fun h => ?_⟩
  simp only [onMessage]
  exact applyMessage_not_found hm baseline s.chart u h

/-- C10 witness: a discarded update (minute `00:05` against a grid holding
only `"00:00"`) still moves the snapshot from 50 to 7 while the chart is
untouched. -/
theorem currentPrice_updated_even_on_discard_witness :
    (onMessage hmOfMinutes (some 40)
        { chart := { labels := ["00:00"], dataset := initialDataset [some 1] (some 40) },
          currentPrice := some 50 }
        { bucketOpenTime := 300000, closePrice := 7 }).currentPrice = some 7 ∧
    (onMessage hmOfMinutes (some 40)
        { chart := { labels := ["00:00"], dataset := initialDataset [some 1] (some 40) },
          currentPrice := some 50 }
        { bucketOpenTime := 300000, closePrice := 7 }).chart =
      { labels := ["00:00"], dataset := initialDataset [some 1] (some 40) } := by
  have h := currentPrice_updated_even_on_discard hmOfMinutes (some 40)
    { chart := { labels := ["00:00"], dataset := initialDataset [some 1] (some 40) },
      currentPrice := some 50 }
    { bucketOpenTime := 300000, closePrice := 7 }
  exact ⟨h.1, h.2 (by decide)⟩

/-- C3 counterexample: merge a live update for slot `"00:01"` (index 1) into
a series whose last non-absent price sits at index 2.  After the merge the
last non-absent index is still 2, yet the live-path radius closure gives
index 2 radius 0 and index 1 radius 6 — the marker is at the updated slot,
not at the last non-absent price.  And with baseline 5, an update writing 2
into slot 1 of a series ending at 10 gets a red live-path line while the
initial-build derivation on the very same merged series gives green — the
two paths are not the same function. -/
theorem live_marker_not_at_last_counterexample :
    lastNonNullIndex ((applyMessage hmOfMinutes (some 1)
        { labels := ["00:00", "00:01", "00:02"],
          dataset := initialDataset [some 1, none, some 2] (some 1) }
        { bucketOpenTime := 60000, closePrice := 3 }).dataset.data) = some 2 ∧
    (applyMessage hmOfMinutes (some 1)
        { labels := ["00:00", "00:01", "00:02"],
          dataset := initialDataset [some 1, none, some 2] (some 1) }
        { bucketOpenTime := 60000, closePrice := 3 }).dataset.pointRadius 2 = 0 ∧
    (applyMessage hmOfMinutes (some 1)
        { labels := ["00:00", "00:01", "00:02"],
          dataset := initialDataset [some 1, none, some 2] (some 1) }
        { bucketOpenTime := 60000, closePrice := 3 }).dataset.pointRadius 1 = 6 ∧
    (applyMessage hmOfMinutes (some 5)
        { labels := ["00:00", "00:01", "00:02"],
          dataset := initialDataset [some 1, none, some 10] (some 5) }
        { bucketOpenTime := 60000, closePrice := 2 }).dataset.borderColor = Color.red ∧
    initBorderColor ((applyMessage hmOfMinutes (some 5)
        { labels := ["00:00", "00:01", "00:02"],
          dataset := initialDataset [some 1, none, some 10] (some 5) }
        { bucketOpenTime := 60000, closePrice := 2 }).dataset.data) (some 5) = Color.green := by
  decide

/-- C3 as amended: the initial pass puts the non-zero marker radius exactly
at the last non-absent index, while a live merge puts it exactly at the
updated slot's index; and whenever the updated slot is the last non-absent
index of the merged series (and the update's price is non-zero, present
baseline), the live path's line and marker colors coincide with what the
initial-build derivation computes on the merged series. -/
theorem presentation_paths_agree (hm : Nat → Nat × Nat) (labels : List String)
    (prices : List (Option Rat)) (b : Rat) (u : LiveUpdate) (ti : Nat)
    (hfind : labels.findIdx? (fun l => l == fmtLabel (hm u.bucketOpenTime)) = some ti)
    (hc : u.closePrice ≠ 0) :
    (∀ i, (initialDataset prices (some b)).pointRadius i ≠ 0 ↔
        some i = lastNonNullIndex prices) ∧
    (∀ i, (applyMessage hm (some b)
        { labels := labels, dataset := initialDataset prices (some b) } u).dataset.pointRadius i
        ≠ 0 ↔ i = ti) ∧
    (lastNonNullIndex (prices.set ti (some u.closePrice)) = some ti →
      (applyMessage hm (some b)
          { labels := labels, dataset := initialDataset prices (some b) } u).dataset.borderColor =
        initBorderColor (prices.set ti (some u.closePrice)) (some b) ∧
      ∀ i, (applyMessage hm (some b)
          { labels := labels, dataset := initialDataset prices (some b) } u).dataset.pointBg i =
        initPointBg (prices.set ti (some u.closePrice)) (some b) i) := by
  have happ : applyMessage hm (some b)
      { labels := labels, dataset := initialDataset prices (some b) } u =
      { labels := labels
        dataset :=
          { data := prices.set ti (some u.closePrice)
            pointRadius := livePointRadius ti
            pointBg := livePointBg ti u.closePrice (some b)
            pointBorder := livePointBorder ti
            borderColor := liveBorderColor u.closePrice (some b) } } := by
    simp only [applyMessage, hfind, initialDataset]
  refine ⟨?_, ?_, ?_⟩
  · intro i
    simp only [initialDataset, initPointRadius]
    by_cases h : some i = lastNonNullIndex prices <;> simp [h]
  · intro i
    rw [happ]
    simp only [livePointRadius]
    by_cases h : i = ti <;> simp [h]
  · intro h2
    have hti : (prices.set ti (some u.closePrice)).getD ti none = some u.closePrice := by
      by_cases hlen : ti < prices.length
      · rw [List.getD_eq_getElem?_getD, List.getElem?_set_self hlen]
        rfl
      · push_neg at hlen
        have hset : prices.set ti (some u.closePrice) = prices :=
          List.set_eq_of_length_le hlen
        have := getD_lastNonNullIndex_isSome _ _ h2
        rw [hset] at this ⊢
        rw [List.getD_eq_default _ _ hlen] at this
        simp at this
    constructor
    · rw [happ]
      have hlast : lastValidPrice (prices.set ti (some u.closePrice)) = some u.closePrice := by
        rw [lastValidPrice_eq_getD _ _ h2, hti]
      show liveBorderColor u.closePrice (some b) =
        initBorderColor (prices.set ti (some u.closePrice)) (some b)
      unfold initBorderColor liveBorderColor
      rw [hlast]
      simp [hc]
    · intro i
      rw [happ]
      show livePointBg ti u.closePrice (some b) i =
        initPointBg (prices.set ti (some u.closePrice)) (some b) i
      by_cases hi : i = ti
      · subst hi
        have hlen0 : 0 < prices.length := by
          have := length_pos_of_lastNonNullIndex _ _ h2
          simpa using this
        unfold livePointBg initPointBg
        rw [h2, hti]
        simp [jsGtNullable, hlen0]
      · unfold livePointBg initPointBg
        rw [h2]
        simp [hi]

/-- C3 witness: labels `"00:00"`, `"00:01"`, prices `[some 1, none]`,
update writes 3 into slot 1 (the new last non-absent index): the radius
rules hold and the two paths' colors agree on the merged series. -/
theorem presentation_paths_agree_witness :
    ((initialDataset [some 1, none] (some 2)).pointRadius 0 ≠ 0 ↔
        some 0 = lastNonNullIndex [some 1, none]) ∧
    ((applyMessage hmOfMinutes (some 2)
        { labels := ["00:00", "00:01"], dataset := initialDataset [some 1, none] (some 2) }
        { bucketOpenTime := 60000, closePrice := 3 }).dataset.pointRadius 1 ≠ 0 ↔ 1 = 1) ∧
    (applyMessage hmOfMinutes (some 2)
        { labels := ["00:00", "00:01"], dataset := initialDataset [some 1, none] (some 2) }
        { bucketOpenTime := 60000, closePrice := 3 }).dataset.borderColor =
      initBorderColor ([some 1, none].set 1 (some 3)) (some 2) ∧
    (applyMessage hmOfMinutes (some 2)
        { labels := ["00:00", "00:01"], dataset := initialDataset [some 1, none] (some 2) }
        { bucketOpenTime := 60000, closePrice := 3 }).dataset.pointBg 1 =
      initPointBg ([some 1, none].set 1 (some 3)) (some 2) 1 := by
  have h := presentation_paths_agree hmOfMinutes ["00:00", "00:01"] [some 1, none] 2
    { bucketOpenTime := 60000, closePrice := 3 } 1 (by decide) (by norm_num)
  have h3 := h.2.2 (by decide)
  exact ⟨h.1 0, h.2.1 1, h3.1, h3.2 1⟩

/-- Modelled from the spec: the exchange kline endpoint is not part of this
repository.  Per the spec's page bound, a request returns every bucket of
the half-open page `[cur, endB)` on the `g`‑spaced grid anchored at the
cursor, capped at the page limit of 1000 rows; `priceAt` supplies the close
of the bucket opening at a given time. -/
def sourcePage (priceAt : Nat → Rat) (g cur endB : Nat) : List Candle :=
  (List.range (min 1000 ((endB - cur + g - 1) / g))).map fun k =>
    { openTime := cur + k * g, close := priceAt (cur + k * g) }

/-- The batch loop of `fetchHistoricalData`: while `currentStartTime <
endTime`, request the page `[cursor, min(cursor + 1000·intervalMs,
endTime))`; a failed request throws (modelled as `Except.error`, aborting
the whole loop); an empty page breaks; otherwise append the page and advance
the cursor to one bucket past the page's last candle.  The loop also returns
how many page requests were issued.  `fuel` bounds the iteration count (the
code's loop is bounded by the cursor strictly advancing). -/
def batchLoopE (src : Nat → Nat → Except Unit (List Candle)) (g endT : Nat) :
    Nat → Nat → Except Unit (Nat × List Candle)
  | 0, _ => .ok (0, [])
  | fuel + 1, cur =>
    if cur < endT then
      match src cur (min (cur + 1000 * g) endT) with
      | .error _ => .error ()
      | .ok page =>
        match page.getLast? with
        | none => .ok (1, [])
        | some lastC =>
          match batchLoopE src g endT fuel (lastC.openTime + g) with
          | .error _ => .error ()
          | .ok res => .ok (res.1 + 1, page ++ res.2)
    else .ok (0, [])

/-- An always-successful source serving the ideal pages of `sourcePage`. -/
def okSrc (priceAt : Nat → Rat) (g : Nat) : Nat → Nat → Except Unit (List Candle) :=
  fun cur endB => .ok (sourcePage priceAt g cur endB)

/-- The whole of `fetchHistoricalData` on the Today interval: run the batch
loop; on any failure the `catch` only logs, so the previous chart state
stays as it is and nothing of the partial batches survives; on success build
the series and install the initial dataset via `setChartData`. -/
def runHistorical (hm : Nat → Nat × Nat) (src : Nat → Nat → Except Unit (List Candle))
    (g endT fuel start : Nat) (baseline : Option Rat) (st : ChartData) : ChartData :=
  match batchLoopE src g endT fuel start with
  | .error _ => st
  | .ok res =>
    let s := buildToday hm res.2
    { labels := s.labels, dataset := initialDataset s.prices baseline }


/-- `getLast?` of a mapped range is the image of the top index. -/
lemma getLast?_range_map {α : Type} (f : Nat → α) (m : Nat) (hm : 0 < m) :
    ((List.range m).map f).getLast? = some (f (m - 1)) := by
  obtain ⟨m2, rfl⟩ : ∃ m2, m = m2 + 1 := ⟨m - 1, by omega⟩
  rw [List.range_succ, List.map_append]
  simp

/-- Closed form of the batch loop over the ideal minute-bucket source: with
enough fuel it returns one page request per started block of 1000 remaining
buckets and the full bucket grid of `[cur, endT)`. -/
lemma batchLoopE_okSrc_minute (priceAt : Nat → Rat) (endT : Nat) :
    ∀ fuel cur, (endT - cur + 59999) / 60000 ≤ 1000 * fuel →
      batchLoopE (okSrc priceAt 60000) 60000 endT fuel cur =
        .ok (((endT - cur + 59999) / 60000 + 999) / 1000,
          (List.range ((endT - cur + 59999) / 60000)).map fun k =>
            ({ openTime := cur + k * 60000, close := priceAt (cur + k * 60000) } : Candle)) := by
  intro fuel
  induction fuel with
  | zero =>
    intro cur hn
    have hn0 : (endT - cur + 59999) / 60000 = 0 := by omega
    rw [hn0]
    simp [batchLoopE]
  | succ fuel ih =>
    intro cur hn
    by_cases hcur : cur < endT
    · have hn0 : 0 < (endT - cur + 59999) / 60000 := by omega
      simp only [batchLoopE, okSrc, if_pos hcur, sourcePage]
      by_cases hsmall : (endT - cur + 59999) / 60000 ≤ 1000
      · have hmin : min (cur + 1000 * 60000) endT = endT := by omega
        rw [hmin]
        have hm : min 1000 ((endT - cur + 60000 - 1) / 60000) =
            (endT - cur + 59999) / 60000 := by omega
        rw [hm]
        rw [getLast?_range_map _ _ hn0]
        dsimp only
        have hrec := ih (cur + ((endT - cur + 59999) / 60000 - 1) * 60000 + 60000) (by omega)
        rw [hrec]
        dsimp only
        have hz : (endT - (cur + ((endT - cur + 59999) / 60000 - 1) * 60000 + 60000) + 59999)
            / 60000 = 0 := by omega
        rw [hz]
        have hreq : ((endT - cur + 59999) / 60000 + 999) / 1000 = 1 := by omega
        rw [hreq]
        norm_num
      · have hmin : min (cur + 1000 * 60000) endT = cur + 1000 * 60000 := by omega
        rw [hmin]
        have hm : min 1000 ((cur + 1000 * 60000 - cur + 60000 - 1) / 60000) = 1000 := by omega
        rw [hm]
        rw [getLast?_range_map _ _ (by norm_num : (0:Nat) < 1000)]
        dsimp only
        have hrec := ih (cur + (1000 - 1) * 60000 + 60000) (by omega)
        rw [hrec]
        dsimp only
        have hn2 : (endT - (cur + (1000 - 1) * 60000 + 60000) + 59999) / 60000 =
            (endT - cur + 59999) / 60000 - 1000 := by omega
        rw [hn2]
        have hreq : ((endT - cur + 59999) / 60000 - 1000 + 999) / 1000 + 1 =
            ((endT - cur + 59999) / 60000 + 999) / 1000 := by omega
        rw [hreq]
        have hlist : (List.range ((endT - cur + 59999) / 60000)).map
              (fun k =>
                ({ openTime := cur + k * 60000, close := priceAt (cur + k * 60000) } : Candle)) =
            ((List.range 1000).map fun k =>
              ({ openTime := cur + k * 60000, close := priceAt (cur + k * 60000) } : Candle)) ++
            ((List.range ((endT - cur + 59999) / 60000 - 1000)).map fun k =>
              ({ openTime := cur + (1000 - 1) * 60000 + 60000 + k * 60000,
                 close := priceAt (cur + (1000 - 1) * 60000 + 60000 + k * 60000) } : Candle)) := by
          have hsplit : (endT - cur + 59999) / 60000 =
              1000 + ((endT - cur + 59999) / 60000 - 1000) := by omega
          conv_lhs => rw [hsplit]
          rw [List.range_add, List.map_append, List.map_map]
          congr 1
          apply List.map_congr_left
          intro k _
          have harg : cur + (1000 + k) * 60000 =
              cur + (1000 - 1) * 60000 + 60000 + k * 60000 := by omega
          simp only [Function.comp, harg]
        rw [hlist]
    · have hn0 : (endT - cur + 59999) / 60000 = 0 := by omega
      rw [hn0]
      simp [batchLoopE, hcur]

/-- C5: over a window of 2,500 one-minute buckets (page size 1000), with the
source returning every requested bucket, the batch loop issues exactly 3
page requests and the concatenated result is exactly the 2,500 buckets of
the window, in ascending open-time order with no gaps and no overlaps —
whatever the bucket close prices are. -/
theorem batchLoop_2500_buckets (priceAt : Nat → Rat) :
    batchLoopE (okSrc priceAt 60000) 60000 (2500 * 60000) 5 0 =
      .ok (3, (List.range 2500).map fun k =>
        ({ openTime := k * 60000, close := priceAt (k * 60000) } : Candle)) := by
  have h := batchLoopE_okSrc_minute priceAt (2500 * 60000) 5 0 (by norm_num)
  have hn : (2500 * 60000 - 0 + 59999) / 60000 = 2500 := by norm_num
  have hreq : ((2500 : Nat) + 999) / 1000 = 3 := by norm_num
  rw [hn, hreq] at h
  rw [h]
  have hmaps : ((List.range 2500).map fun k =>
      ({ openTime := 0 + k * 60000, close := priceAt (0 + k * 60000) } : Candle)) =
      (List.range 2500).map fun k =>
        ({ openTime := k * 60000, close := priceAt (k * 60000) } : Candle) := by
    apply List.map_congr_left
    intro k _
    simp
  rw [hmaps]

/-- C6: if any page request of the batch loop fails, the whole historical
fetch for this interval activation fails: the `catch` only logs, so the
previously rendered chart state is returned untouched — the pages already
accumulated are discarded and no series, not even a partial one, is built
or published. -/
theorem fetch_failure_discards_partial (hm : Nat → Nat × Nat)
    (src : Nat → Nat → Except Unit (List Candle)) (g endT fuel start : Nat)
    (baseline : Option Rat) (st : ChartData)
    (h : batchLoopE src g endT fuel start = .error ()) :
    runHistorical hm src g endT fuel start baseline st = st := by
  unfold runHistorical
  rw [h]

/-- A source whose first page succeeds with two candles and whose every
later request fails: the shape of a mid-fetch transport failure. -/
def failingSrc : Nat → Nat → Except Unit (List Candle) :=
  fun cur _ =>
    if cur = 0 then .ok [{ openTime := 0, close := 1 }, { openTime := 60000, close := 2 }]
    else .error ()

/-- C6 witness: with `failingSrc` the second page request fails, the loop
reports the failure, and the historical fetch leaves the previous (empty)
chart state exactly as it was — the two candles of the first page are
discarded. -/
theorem fetch_failure_discards_partial_witness :
    batchLoopE failingSrc 60000 (2500 * 60000) 5 0 = .error () ∧
    runHistorical hmOfMinutes failingSrc 60000 (2500 * 60000) 5 0 none
        { labels := [], dataset := initialDataset [] none } =
      { labels := [], dataset := initialDataset [] none } :=
  ⟨by rfl,
    fetch_failure_discards_partial hmOfMinutes failingSrc 60000 (2500 * 60000) 5 0 none
      { labels := [], dataset := initialDataset [] none } (by rfl)⟩

/-- The six selectable display intervals (`'1m'`, `'1w'`, `'1M'`, `'3M'`,
`'YTD'`, `'1Y'`). -/
inductive IntervalK
  | today
  | week
  | month
  | threeMonths
  | ytd
  | year
deriving DecidableEq, Repr

/-- The component state the interval lifecycle touches. -/
structure AppState where
  interval : IntervalK
  previousClose : Option Rat
  chart : ChartData
  currentPrice : Option Rat

/-- The interval toggle button handler: only `setInterval(i)` runs.
Neither `previousClose` nor `chartData` is reset here, and no in-flight
request is aborted or marked stale. -/
def switchInterval (s : AppState) (i : IntervalK) : AppState :=
  { s with interval := i }

/-- The continuation of `fetchPreviousClose` once its response has arrived
and parsed: `if (previousClosePrice) { setPreviousClose(previousClosePrice) }`
(JS truthiness: a parsed price of 0 is falsy and is dropped).  `issuedFor`
records which interval the request was issued for; the code keeps no such
tag and never compares it against the interval that is current when the
response lands. -/
def applyBaselineResponse (s : AppState) (_issuedFor : IntervalK)
    (price : Option Rat) : AppState :=
  match price with
  | some p => if p ≠ 0 then { s with previousClose := some p } else s
  | none => s

/-- C4, at the failing input: switch from Today to Week while Today's
baseline request is in flight.  The switch leaves the old baseline 50 in
place (carryover), and when the Today-issued response lands with price 100
it overwrites the Week activation's baseline — nothing keys the response to
the interval that issued it. -/
theorem stale_baseline_survives_and_overwrites :
    (switchInterval
        { interval := .today, previousClose := some 50,
          chart := { labels := [], dataset := initialDataset [] none },
          currentPrice := none } .week).previousClose = some 50 ∧
    (switchInterval
        { interval := .today, previousClose := some 50,
          chart := { labels := [], dataset := initialDataset [] none },
          currentPrice := none } .week).interval = .week ∧
    (applyBaselineResponse
        (switchInterval
          { interval := .today, previousClose := some 50,
            chart := { labels := [], dataset := initialDataset [] none },
            currentPrice := none } .week)
        .today (some 100)).previousClose = some 100 := by
  refine ⟨rfl, rfl, ?_⟩
  simp [applyBaselineResponse, switchInterval]

/-- The shape of a `klines` request as `fetchPreviousClose` builds it:
granularity string, optional `startTime`/`endTime` window, and `limit`. -/
structure KlineQuery where
  granularity : String
  window : Option (Nat × Nat)
  limit : Nat
deriving DecidableEq, Repr

/-- The query `fetchPreviousClose` issues per interval: Today asks the daily
granularity with `limit=2` and no window; every other interval asks its own
chart granularity over its own lookback window with `limit=1000`.  `jan1`
is `new Date(getFullYear(), 0, 1).getTime()`. -/
def baselineQuery (i : IntervalK) (now jan1 : Nat) : KlineQuery :=
  match i with
  | .today => { granularity := "1d", window := none, limit := 2 }
  | .week =>
    { granularity := "1h", window := some (now - 7 * 24 * 60 * 60 * 1000, now), limit := 1000 }
  | .month =>
    { granularity := "4h", window := some (now - 30 * 24 * 60 * 60 * 1000, now), limit := 1000 }
  | .threeMonths =>
    { granularity := "1d", window := some (now - 90 * 24 * 60 * 60 * 1000, now), limit := 1000 }
  | .ytd => { granularity := "1d", window := some (jan1, now), limit := 1000 }
  | .year =>
    { granularity := "1d", window := some (now - 365 * 24 * 60 * 60 * 1000, now), limit := 1000 }

/-- How `fetchPreviousClose` reads the baseline out of the response rows:
Today takes `data[data.length - 2]` (absent when fewer than two rows);
the five windowed intervals take `data[0]`, the oldest row in the window.
(The code's final `else` arm is unreachable for these six intervals.) -/
def baselineExtract (i : IntervalK) (rows : List Candle) : Option Rat :=
  match i with
  | .today =>
    if 2 ≤ rows.length then (rows[rows.length - 2]?).map Candle.close else none
  | _ => (rows[0]?).map Candle.close

/-- The time range and granularity `getTimeConfig` in `fetchHistoricalData`
computes per interval.  `midnight` is local midnight of the current day and
`jan1` is local Jan 1 of the current year, both abstracted from the
browser's `Date` arithmetic. -/
structure TimeConfig where
  startTime : Nat
  endTime : Nat
  apiInterval : String
  intervalMs : Nat
deriving DecidableEq, Repr

/-- `getTimeConfig` of `fetchHistoricalData`. -/
def getTimeConfig (i : IntervalK) (now midnight jan1 : Nat) : TimeConfig :=
  match i with
  | .today =>
    { startTime := midnight, endTime := midnight + 24 * 60 * 60 * 1000 - 1,
      apiInterval := "1m", intervalMs := 60000 }
  | .week =>
    { startTime := now - 7 * 24 * 60 * 60 * 1000, endTime := now,
      apiInterval := "1h", intervalMs := 3600000 }
  | .month =>
    { startTime := now - 30 * 24 * 60 * 60 * 1000, endTime := now,
      apiInterval := "4h", intervalMs := 14400000 }
  | .threeMonths =>
    { startTime := now - 90 * 24 * 60 * 60 * 1000, endTime := now,
      apiInterval := "1d", intervalMs := 86400000 }
  | .ytd =>
    { startTime := jan1, endTime := now, apiInterval := "1d", intervalMs := 86400000 }
  | .year =>
    { startTime := now - 365 * 24 * 60 * 60 * 1000, endTime := now,
      apiInterval := "1d", intervalMs := 86400000 }

/-- Reading index 1 of the reversed list is reading the second-to-last
element, guarded by the list holding at least two elements. -/
lemma getElem?_reverse_one (rows : List Candle) :
    rows.reverse[1]? = if 2 ≤ rows.length then rows[rows.length - 2]? else none := by
  by_cases h : 2 ≤ rows.length
  · rw [if_pos h, List.getElem?_reverse (by omega : 1 < rows.length)]
    congr 1
  · rw [if_neg h]
    apply List.getElem?_eq_none
    rw [List.length_reverse]
    omega

/-- C9: the baseline resolver's rule is interval-dependent.  For Today it
queries the daily granularity with a 2-row window and returns the close of
the second-to-last row; for every other interval it queries at that
interval's own chart granularity over that interval's own window — the same
granularity and window `getTimeConfig` gives the historical fetch — and
returns the close of the first (oldest) row. -/
theorem baseline_rule_interval_dependent (now midnight jan1 : Nat) :
    (baselineQuery .today now jan1 = { granularity := "1d", window := none, limit := 2 } ∧
      ∀ rows : List Candle,
        baselineExtract .today rows = (rows.reverse[1]?).map Candle.close) ∧
    ∀ i : IntervalK, i ≠ .today →
      (baselineQuery i now jan1).granularity = (getTimeConfig i now midnight jan1).apiInterval ∧
      (baselineQuery i now jan1).window =
        some ((getTimeConfig i now midnight jan1).startTime,
          (getTimeConfig i now midnight jan1).endTime) ∧
      ∀ rows : List Candle, baselineExtract i rows = (rows[0]?).map Candle.close := by
  refine ⟨⟨rfl, ?_⟩, ?_⟩
  · intro rows
    rw [getElem?_reverse_one]
    unfold baselineExtract
    by_cases h : 2 ≤ rows.length
    · rw [if_pos h, if_pos h]
    · rw [if_neg h, if_neg h]
      rfl
  · intro i hi
    cases i with
    | today => exact absurd rfl hi
    | week => exact ⟨rfl, rfl, fun rows => rfl⟩
    | month => exact ⟨rfl, rfl, fun rows => rfl⟩
    | threeMonths => exact ⟨rfl, rfl, fun rows => rfl⟩
    | ytd => exact ⟨rfl, rfl, fun rows => rfl⟩
    | year => exact ⟨rfl, rfl, fun rows => rfl⟩

/-- C9 witness: instantiated at Week with concrete times and a one-row
response, plus the Today extraction on a two-row response. -/
theorem baseline_rule_interval_dependent_witness :
    (baselineQuery .week 1000000000 12345).granularity =
      (getTimeConfig .week 1000000000 777 12345).apiInterval ∧
    (baselineQuery .week 1000000000 12345).window =
      some ((getTimeConfig .week 1000000000 777 12345).startTime,
        (getTimeConfig .week 1000000000 777 12345).endTime) ∧
    baselineExtract .week [{ openTime := 5, close := 42 }] = some 42 ∧
    baselineExtract .today
        [{ openTime := 1, close := 7 }, { openTime := 2, close := 9 }] = some 7 := by
  have h := (baseline_rule_interval_dependent 1000000000 777 12345).2 .week (by decide)
  have ht := (baseline_rule_interval_dependent 1000000000 777 12345).1.2
    [{ openTime := 1, close := 7 }, { openTime := 2, close := 9 }]
  refine ⟨h.1, h.2.1, ?_, ?_⟩
  · rw [h.2.2 [{ openTime := 5, close := 42 }]]
    rfl
  · rw [ht]
    rfl

/-- C1 witness: the grid shape instantiated at the UTC clock and the empty
candle list. -/
theorem buildToday_full_grid_witness :
    (buildToday hmOfMinutes []).labels =
      ((List.range 1440).map fun k => pad2 (k / 60) ++ ":" ++ pad2 (k % 60)) ∧
    (buildToday hmOfMinutes []).labels.length = 1440 ∧
    (buildToday hmOfMinutes []).prices.length = 1440 ∧
    (buildToday hmOfMinutes []).prices =
      ((List.range 1440).map fun k =>
        (([] : List Candle).find? fun c =>
          hmOfMinutes c.openTime == (k / 60, k % 60)).map Candle.close) :=
  buildToday_full_grid hmOfMinutes []

/-- C5 witness: the pagination scenario instantiated at the constant-zero
price source. -/
theorem batchLoop_2500_buckets_witness :
    batchLoopE (okSrc (fun _ => (0 : Rat)) 60000) 60000 (2500 * 60000) 5 0 =
      .ok (3, (List.range 2500).map fun k =>
        ({ openTime := k * 60000, close := 0 } : Candle)) :=
  batchLoop_2500_buckets (fun _ => 0)
